import Mathlib

/-!
Verification of the IMX415 streamer frame-processing pipeline.

The definitions below are shallow embeddings of the Rust source:
`src/capture.rs` (raw acquisition, 10-bit Bayer unpack, GBRG demosaic,
grayscale extraction and bilinear upscale), `src/main.rs` (capture loop
and HTTP handlers) and `src/detector.rs` (overlay rendering).
Machine integers are modelled as `Nat` with explicit `% 2^w` at the
points where the source performs a narrowing cast; byte buffers are
`List Nat`; image planes that the source stores in flat `Vec`s are
modelled as functions from flat index to value, with out-of-range
indices returning the previous contents of the buffer.
-/

namespace IMX415

/-- `WIDTH` constant of `capture.rs`. -/
def WIDTH : Nat := 3840

/-- `HEIGHT` constant of `capture.rs`. -/
def HEIGHT : Nat := 2160

/-- `STRIDE` constant of `capture.rs`. -/
def STRIDE : Nat := 4864

/-- `GROUPS_PER_ROW` constant of `capture.rs`. -/
def GROUPS_PER_ROW : Nat := 960

/-- One cell of the `bayer10` plane after `unpack_bayer10` (capture.rs
lines 162-185) has run over `raw`.  The imperative loop writes
`bayer10[y*WIDTH + x*4 + k] = (b_k << 2) | ((b4 >> 2k) & 3)` with
`b_j = raw[y*STRIDE + x*5 + j]`, skipping (via `break`, which for the
monotone offset is the same as skipping) every group whose five bytes do
not fit in `raw`; untouched cells keep their previous value `old`. -/
def unpack_bayer10 (raw : List Nat) (old : Nat → Nat) (idx : Nat) : Nat :=
  let y := idx / WIDTH
  let px := idx % WIDTH
  let x := px / 4
  let k := px % 4
  let i := y * STRIDE + x * 5
  if y < HEIGHT ∧ i + 4 < raw.length then
    let b := fun j => raw.getD (i + j) 0
    ((b k) <<< 2) ||| (((b 4) >>> (2 * k)) &&& 0x3)
  else old idx

theorem lor_four_mul (a b : Nat) (hb : b < 4) : 4 * a ||| b = 4 * a + b := by
  have h := Nat.mul_add_lt_is_or (i := 2) (b := b) (by simpa using hb) a
  simpa using h.symm

/-- CLAIM C1 (Unpack round-trip): for every row `y < HEIGHT` and group
`x < WIDTH/4` whose five bytes lie within `raw`, if the raw bytes are
built from 10-bit values `v 0 .. v 3` as `b_k = (v_k >> 2) & 0xFF` and
`b4` packs the low two bits of each `v_k` at bit position `2k`, then
`unpack_bayer10` stores exactly `v k` at plane index `y*WIDTH + 4x + k`,
for all `v k ≤ 1023`. -/
theorem unpack_roundtrip (raw : List Nat) (old : Nat → Nat) (v : Nat → Nat)
    (y x : Nat) (hy : y < HEIGHT) (hx : x < WIDTH / 4)
    (hin : y * STRIDE + x * 5 + 4 < raw.length)
    (hv : ∀ k, k < 4 → v k ≤ 1023)
    (hb : ∀ k, k < 4 → raw.getD (y * STRIDE + x * 5 + k) 0 = (v k >>> 2) &&& 0xFF)
    (hb4 : raw.getD (y * STRIDE + x * 5 + 4) 0 =
      v 0 % 4 + v 1 % 4 * 4 + v 2 % 4 * 16 + v 3 % 4 * 64) :
    ∀ k, k < 4 → unpack_bayer10 raw old (y * WIDTH + (4 * x + k)) = v k := by
  intro k hk
  have hW : WIDTH = 3840 := rfl
  have hx' : x < 960 := by simpa [WIDTH] using hx
  have hpx : 4 * x + k < 3840 := by omega
  have hdiv : (y * WIDTH + (4 * x + k)) / WIDTH = y := by
    rw [hW]; omega
  have hmod : (y * WIDTH + (4 * x + k)) % WIDTH = 4 * x + k := by
    rw [hW]; omega
  have hxdiv : (4 * x + k) / 4 = x := by omega
  have hkmod : (4 * x + k) % 4 = k := by omega
  unfold unpack_bayer10
  simp only [hdiv, hmod, hxdiv, hkmod]
  rw [if_pos ⟨hy, hin⟩]
  have hbk := hb k hk
  have hvk := hv k hk
  -- rewrite the byte reads
  simp only [hbk, hb4]
  have h255 : (v k >>> 2) &&& 0xFF = v k / 4 := by
    have : v k >>> 2 = v k / 4 := by
      rw [Nat.shiftRight_eq_div_pow]
    rw [this]
    have hlt : v k / 4 < 2 ^ 8 := by omega
    calc v k / 4 &&& 0xFF = v k / 4 &&& 2 ^ 8 - 1 := by norm_num
    _ = v k / 4 := Nat.and_pow_two_sub_one_of_lt_two_pow hlt
  rw [h255, Nat.shiftLeft_eq]
  have hshift : (v 0 % 4 + v 1 % 4 * 4 + v 2 % 4 * 16 + v 3 % 4 * 64) >>> (2 * k)
      = (v 0 % 4 + v 1 % 4 * 4 + v 2 % 4 * 16 + v 3 % 4 * 64) / 4 ^ k := by
    rw [Nat.shiftRight_eq_div_pow, pow_mul]
    norm_num
  rw [hshift]
  have hand : ∀ m : Nat, m &&& 0x3 = m % 4 := by
    intro m
    calc m &&& 0x3 = m &&& 2 ^ 2 - 1 := by norm_num
    _ = m % 2 ^ 2 := Nat.and_pow_two_sub_one_eq_mod m 2
    _ = m % 4 := by norm_num
  rw [hand]
  have hdig : (v 0 % 4 + v 1 % 4 * 4 + v 2 % 4 * 16 + v 3 % 4 * 64) / 4 ^ k % 4
      = v k % 4 := by
    interval_cases k <;> simp <;> omega
  rw [hdig]
  have hlor : v k / 4 * 2 ^ 2 ||| v k % 4 = 4 * (v k / 4) + v k % 4 := by
    have := lor_four_mul (v k / 4) (v k % 4) (Nat.mod_lt _ (by norm_num))
    calc v k / 4 * 2 ^ 2 ||| v k % 4 = 4 * (v k / 4) ||| v k % 4 := by ring_nf
    _ = 4 * (v k / 4) + v k % 4 := this
  rw [hlor]
  omega

/-- Witness for C1 at a concrete input: `v = [1023, 512, 7, 0]`,
`y = 0`, `x = 0`, raw buffer of five bytes. -/
theorem unpack_roundtrip_witness :
    unpack_bayer10 [255, 128, 1, 0, 0b00110011] (fun _ => 0) 0 = 1023 ∧
    unpack_bayer10 [255, 128, 1, 0, 0b00110011] (fun _ => 0) 1 = 512 ∧
    unpack_bayer10 [255, 128, 1, 0, 0b00110011] (fun _ => 0) 2 = 7 ∧
    unpack_bayer10 [255, 128, 1, 0, 0b00110011] (fun _ => 0) 3 = 0 := by
  have h := unpack_roundtrip [255, 128, 1, 0, 0b00110011] (fun _ => 0)
    (fun k => if k = 0 then 1023 else if k = 1 then 512 else if k = 2 then 7 else 0)
    0 0 (by decide) (by decide) (by decide)
    (by intro k hk; interval_cases k <;> decide)
    (by intro k hk; interval_cases k <;> decide)
    (by decide)
  refine ⟨?_, ?_, ?_, ?_⟩
  · simpa using h 0 (by decide)
  · simpa using h 1 (by decide)
  · simpa using h 2 (by decide)
  · simpa using h 3 (by decide)

theorem getD_le_of_forall (l : List Nat) (m : Nat) (h : ∀ b ∈ l, b ≤ m) :
    ∀ i, l.getD i 0 ≤ m := by
  induction l with
  | nil => intro i; simp [List.getD]
  | cons a t ih =>
    intro i
    cases i with
    | zero => simpa using h a (by simp)
    | succ j =>
      simpa using ih (fun b hb => h b (by simp [hb])) j

/-- One cell of the `gray_native` plane after `extract_grayscale`
(capture.rs lines 294-312) has run over `raw`.  The loop writes
`gray_native[out_y*GROUPS_PER_ROW + g] = ((v0 + v1) / 2) as u8` where
`v0`, `v1` are the bytes at `out_y*2*STRIDE + g*5 + 4` and
`(out_y*2+1)*STRIDE + g*5 + 4` (`unwrap_or(0)` on a missing index);
the `as u8` narrowing is `% 256`. -/
def extract_grayscale (raw : List Nat) (old : Nat → Nat) (idx : Nat) : Nat :=
  let out_y := idx / GROUPS_PER_ROW
  let g := idx % GROUPS_PER_ROW
  if out_y < HEIGHT / 2 then
    let v0 := raw.getD (out_y * 2 * STRIDE + g * 5 + 4) 0
    let v1 := raw.getD ((out_y * 2 + 1) * STRIDE + g * 5 + 4) 0
    ((v0 + v1) / 2) % 256
  else old idx

/-- CLAIM C4 (Grayscale extraction with row averaging): for every
output row `oy < HEIGHT/2` and group `g < GROUPS_PER_ROW`,
`extract_grayscale` stores at index `oy*GROUPS_PER_ROW + g` the integer
average of the two byte-4 samples of raw rows `2oy` and `2oy+1`; an
index beyond the end of `raw` contributes zero (`getD … 0`). -/
theorem extract_grayscale_avg (raw : List Nat) (old : Nat → Nat) (oy g : Nat)
    (hoy : oy < HEIGHT / 2) (hg : g < GROUPS_PER_ROW)
    (hbytes : ∀ b ∈ raw, b ≤ 255) :
    extract_grayscale raw old (oy * GROUPS_PER_ROW + g) =
      (raw.getD (2 * oy * STRIDE + 5 * g + 4) 0 +
       raw.getD ((2 * oy + 1) * STRIDE + 5 * g + 4) 0) / 2 := by
  have hG : GROUPS_PER_ROW = 960 := rfl
  have hg' : g < 960 := by simpa [GROUPS_PER_ROW] using hg
  have hdiv : (oy * GROUPS_PER_ROW + g) / GROUPS_PER_ROW = oy := by
    rw [hG]; omega
  have hmod : (oy * GROUPS_PER_ROW + g) % GROUPS_PER_ROW = g := by
    rw [hG]; omega
  have hidx0 : oy * 2 * STRIDE + g * 5 + 4 = 2 * oy * STRIDE + 5 * g + 4 := by ring
  have hidx1 : (oy * 2 + 1) * STRIDE + g * 5 + 4 = (2 * oy + 1) * STRIDE + 5 * g + 4 := by
    ring
  have h0 := getD_le_of_forall raw 255 hbytes (2 * oy * STRIDE + 5 * g + 4)
  have h1 := getD_le_of_forall raw 255 hbytes ((2 * oy + 1) * STRIDE + 5 * g + 4)
  unfold extract_grayscale
  simp only [hdiv, hmod, hidx0, hidx1]
  rw [if_pos hoy]
  omega

/-- Witness for C4 at `oy = 0`, `g = 0` on a five-byte raw buffer:
byte 4 of row 0 is 10, row 1 is missing (reads as 0), average 5. -/
theorem extract_grayscale_avg_witness :
    extract_grayscale [0, 0, 0, 0, 10] (fun _ => 0) 0 = 5 := by
  have h := extract_grayscale_avg [0, 0, 0, 0, 10] (fun _ => 0) 0 0
    (by decide) (by decide) (by decide)
  simpa using h

/-- `x_ratio` in the source (capture.rs line 321): Q16 horizontal scale
`((src_w - 1) << 16) / (dst_w - 1)` with `src_w = GROUPS_PER_ROW`,
`dst_w = WIDTH`. -/
def x_scale : Nat := ((GROUPS_PER_ROW - 1) <<< 16) / (WIDTH - 1)

/-- `y_ratio` in the source (capture.rs line 322): Q16 vertical scale
`((src_h - 1) << 16) / (dst_h - 1)` with `src_h = HEIGHT/2`,
`dst_h = HEIGHT`. -/
def y_scale : Nat := ((HEIGHT / 2 - 1) <<< 16) / (HEIGHT - 1)

/-- `src_x0` of capture.rs line 334. -/
def src_x0 (dx : Nat) : Nat := (dx * x_scale) >>> 16

/-- `src_x1` of capture.rs line 335. -/
def src_x1 (dx : Nat) : Nat := min (src_x0 dx + 1) (GROUPS_PER_ROW - 1)

/-- `x_frac` of capture.rs line 336. -/
def x_frac (dx : Nat) : Nat := (dx * x_scale) &&& 0xFFFF

/-- `src_y0` of capture.rs line 326. -/
def src_y0 (dy : Nat) : Nat := (dy * y_scale) >>> 16

/-- `src_y1` of capture.rs line 327. -/
def src_y1 (dy : Nat) : Nat := min (src_y0 dy + 1) (HEIGHT / 2 - 1)

/-- `y_frac` of capture.rs line 328. -/
def y_frac (dy : Nat) : Nat := (dy * y_scale) &&& 0xFFFF

/-- One Q16 linear blend of capture.rs lines 346-348:
`(a * (0x10000 - f) + b * f) >> 16`.  `top`, `bot` and `val` are all
of this shape. -/
def blend (a b f : Nat) : Nat := (a * (0x10000 - f) + b * f) >>> 16

/-- One pixel of `upscale_grayscale` (capture.rs lines 315-353) before
the `as u8` store: `top = blend p00 p01 x_frac`,
`bot = blend p10 p11 x_frac`, result `blend top bot y_frac`, with the
four samples read from the flat 960-wide `gray_native` plane. -/
def upscale_pixel (src : Nat → Nat) (dx dy : Nat) : Nat :=
  blend
    (blend (src (src_y0 dy * GROUPS_PER_ROW + src_x0 dx))
           (src (src_y0 dy * GROUPS_PER_ROW + src_x1 dx)) (x_frac dx))
    (blend (src (src_y1 dy * GROUPS_PER_ROW + src_x0 dx))
           (src (src_y1 dy * GROUPS_PER_ROW + src_x1 dx)) (x_frac dx))
    (y_frac dy)

/-- The byte stored into `gray_output[dy*WIDTH + dx]` (capture.rs line
350): `val as u8`, i.e. the pixel value reduced `% 256`. -/
def upscale_grayscale (src : Nat → Nat) (dx dy : Nat) : Nat :=
  upscale_pixel src dx dy % 256

theorem and_ffff_eq_mod (m : Nat) : m &&& 0xFFFF = m % 65536 := by
  calc m &&& 0xFFFF = m &&& 2 ^ 16 - 1 := by norm_num
  _ = m % 2 ^ 16 := Nat.and_pow_two_sub_one_eq_mod m 16
  _ = m % 65536 := by norm_num

theorem x_frac_lt (dx : Nat) : x_frac dx < 65536 := by
  unfold x_frac
  rw [and_ffff_eq_mod]
  exact Nat.mod_lt _ (by norm_num)

theorem y_frac_lt (dy : Nat) : y_frac dy < 65536 := by
  unfold y_frac
  rw [and_ffff_eq_mod]
  exact Nat.mod_lt _ (by norm_num)

theorem blend_shift (a b k f : Nat) (hf : f ≤ 65536) :
    blend (a + k) (b + k) f = blend a b f + k := by
  unfold blend
  rw [Nat.shiftRight_eq_div_pow, Nat.shiftRight_eq_div_pow]
  have hnum : (a + k) * (0x10000 - f) + (b + k) * f
      = (a * (0x10000 - f) + b * f) + k * 65536 := by
    have : 0x10000 - f + f = 65536 := by omega
    nlinarith [this]
  rw [hnum]
  have : (2 : Nat) ^ 16 = 65536 := by norm_num
  rw [this, Nat.add_mul_div_right _ _ (by norm_num : (0:Nat) < 65536)]

theorem blend_le (a b f M : Nat) (ha : a ≤ M) (hb : b ≤ M) (hf : f ≤ 65536) :
    blend a b f ≤ M := by
  unfold blend
  rw [Nat.shiftRight_eq_div_pow]
  have hnum : a * (0x10000 - f) + b * f ≤ M * 65536 := by
    have h1 : a * (0x10000 - f) ≤ M * (0x10000 - f) := Nat.mul_le_mul_right _ ha
    have h2 : b * f ≤ M * f := Nat.mul_le_mul_right _ hb
    have h3 : M * (0x10000 - f) + M * f = M * 65536 := by
      have : 0x10000 - f + f = 65536 := by omega
      calc M * (0x10000 - f) + M * f = M * (0x10000 - f + f) := by ring
      _ = M * 65536 := by rw [this]
    omega
  calc (a * (0x10000 - f) + b * f) / 2 ^ 16 ≤ M * 65536 / 2 ^ 16 :=
    Nat.div_le_div_right hnum
  _ = M := by
    have : (2 : Nat) ^ 16 = 65536 := by norm_num
    rw [this, Nat.mul_div_cancel _ (by norm_num : (0:Nat) < 65536)]

theorem blend_const (c f : Nat) (hf : f ≤ 65536) : blend c c f = c := by
  have h := blend_shift 0 0 c f hf
  simpa [blend, Nat.shiftRight_eq_div_pow] using h

/-- CLAIM C6 (Upscale shift-invariance): adding a constant `k` to every
source pixel, provided every `src i + k ≤ 255`, adds exactly `k` to
every destination pixel of the bilinear upscale. -/
theorem upscale_shift_invariance (src : Nat → Nat) (k : Nat)
    (h : ∀ i, src i + k ≤ 255) :
    ∀ dx dy, upscale_grayscale (fun i => src i + k) dx dy =
      upscale_grayscale src dx dy + k := by
  intro dx dy
  have hxf : x_frac dx ≤ 65536 := le_of_lt (x_frac_lt dx)
  have hyf : y_frac dy ≤ 65536 := le_of_lt (y_frac_lt dy)
  have hk : k ≤ 255 := le_trans (Nat.le_add_left _ _) (h 0)
  have hsrc : ∀ i, src i ≤ 255 - k := fun i => by have := h i; omega
  have hraw : upscale_pixel (fun i => src i + k) dx dy
      = upscale_pixel src dx dy + k := by
    unfold upscale_pixel
    rw [blend_shift _ _ k _ hxf, blend_shift _ _ k _ hxf, blend_shift _ _ k _ hyf]
  have hb : upscale_pixel src dx dy ≤ 255 - k := by
    unfold upscale_pixel
    exact blend_le _ _ _ _
      (blend_le _ _ _ _ (hsrc _) (hsrc _) hxf)
      (blend_le _ _ _ _ (hsrc _) (hsrc _) hxf) hyf
  unfold upscale_grayscale
  rw [hraw]
  omega

/-- Witness for C6: constant source plane 100 shifted by 55 at the
bottom-right destination pixel. -/
theorem upscale_shift_invariance_witness :
    upscale_grayscale (fun i => (fun _ : Nat => 100) i + 55) 3839 2159 =
      upscale_grayscale (fun _ : Nat => 100) 3839 2159 + 55 :=
  upscale_shift_invariance (fun _ => 100) 55 (fun _ => by norm_num) 3839 2159

/-- Counterexample to CLAIM C5 as stated: on the plane that is 255 at
the last native pixel `(1079, 959)` and 0 elsewhere, the destination
pixel at `(WIDTH-1, HEIGHT-1)` is 245, not `native_gray[1079][959] =
255` — the Q16 ratios round down, so the bottom-right destination
pixel samples source columns 958-959 and rows 1078-1079 with nonzero
fractions. -/
theorem upscale_corner_cex :
    upscale_grayscale (fun i => if i = 1079 * 960 + 959 then 255 else 0) 3839 2159 ≠
      (fun i : Nat => if i = 1079 * 960 + 959 then 255 else 0) (1079 * 960 + 959) := by
  decide

/-- CLAIM C5, amended (Upscale endpoint exactness): the destination
pixel at `(0,0)` equals `native_gray[0,0]` for any byte contents; the
destination pixel at `(WIDTH-1, HEIGHT-1)` is the Q16 blend of the four
source pixels at rows 1078-1079, columns 958-959, and equals
`native_gray[src_h-1][src_w-1]` whenever those four pixels are equal. -/
theorem upscale_endpoints (src : Nat → Nat) (h255 : ∀ i, src i ≤ 255)
    (hc1 : src (1078 * 960 + 958) = src (1079 * 960 + 959))
    (hc2 : src (1078 * 960 + 959) = src (1079 * 960 + 959))
    (hc3 : src (1079 * 960 + 958) = src (1079 * 960 + 959)) :
    upscale_grayscale src 0 0 = src 0 ∧
    upscale_grayscale src (WIDTH - 1) (HEIGHT - 1) = src (1079 * 960 + 959) := by
  constructor
  · have hx0 : src_x0 0 = 0 := by decide
    have hy0 : src_y0 0 = 0 := by decide
    have hxf : x_frac 0 = 0 := by decide
    have hyf : y_frac 0 = 0 := by decide
    have hb0 : ∀ a b : Nat, blend a b 0 = a := by
      intro a b
      unfold blend
      rw [Nat.shiftRight_eq_div_pow]
      norm_num
    unfold upscale_grayscale upscale_pixel
    rw [hx0, hy0, hxf, hyf, hb0, hb0]
    simp only [Nat.zero_mul, Nat.add_zero]
    exact Nat.mod_eq_of_lt (by have := h255 0; omega)
  · have hx0 : src_x0 (WIDTH - 1) = 958 := by decide
    have hx1 : src_x1 (WIDTH - 1) = 959 := by decide
    have hy0 : src_y0 (HEIGHT - 1) = 1078 := by decide
    have hy1 : src_y1 (HEIGHT - 1) = 1079 := by decide
    have hxf : x_frac (WIDTH - 1) ≤ 65536 := le_of_lt (x_frac_lt _)
    have hyf : y_frac (HEIGHT - 1) ≤ 65536 := le_of_lt (y_frac_lt _)
    unfold upscale_grayscale upscale_pixel
    rw [hx0, hx1, hy0, hy1]
    have hG : GROUPS_PER_ROW = 960 := rfl
    rw [hG, hc1, hc2, hc3]
    rw [blend_const _ _ hxf, blend_const _ _ hyf]
    exact Nat.mod_eq_of_lt (by have := h255 (1079 * 960 + 959); omega)

/-- Witness for the amended C5 on the constant plane 17. -/
theorem upscale_endpoints_witness :
    upscale_grayscale (fun _ : Nat => 17) 0 0 = 17 ∧
    upscale_grayscale (fun _ : Nat => 17) (WIDTH - 1) (HEIGHT - 1) = 17 := by
  have h := upscale_endpoints (fun _ => 17) (fun _ => by norm_num) rfl rfl rfl
  simpa using h

/-- `bayer` of capture.rs lines 188-193: access to the 10-bit plane with
both coordinates clamped (`clamp(0, WIDTH-1)` = `min (max · 0)
(WIDTH-1)`) before flat indexing. -/
def bayer (plane : Nat → Nat) (x y : Int) : Nat :=
  let xc := (min (max x 0) ((WIDTH : Int) - 1)).toNat
  let yc := (min (max y 0) ((HEIGHT : Int) - 1)).toNat
  plane (yc * WIDTH + xc)

/-- Interleaved RGB triple. -/
structure Rgb where
  r : Nat
  g : Nat
  b : Nat
deriving Repr, DecidableEq

/-- The `(r, g, b)` triple produced by the `match ((y & 1), (x & 1))`
of `demosaic_bayer` (capture.rs lines 201-238), before the
min/shift/store.  For the nonnegative loop coordinates of the source,
`y & 1` is `y % 2`. -/
def demosaic_match (plane : Nat → Nat) (x y : Int) : Rgb :=
  if y % 2 = 0 then
    if x % 2 = 0 then
      ⟨(bayer plane x (y - 1) + bayer plane x (y + 1)) / 2,
       bayer plane x y,
       (bayer plane (x - 1) y + bayer plane (x + 1) y) / 2⟩
    else
      ⟨(bayer plane (x - 1) (y - 1) + bayer plane (x + 1) (y - 1)
          + bayer plane (x - 1) (y + 1) + bayer plane (x + 1) (y + 1)) / 4,
       (bayer plane (x - 1) y + bayer plane (x + 1) y
          + bayer plane x (y - 1) + bayer plane x (y + 1)) / 4,
       bayer plane x y⟩
  else
    if x % 2 = 0 then
      ⟨bayer plane x y,
       (bayer plane (x - 1) y + bayer plane (x + 1) y
          + bayer plane x (y - 1) + bayer plane x (y + 1)) / 4,
       (bayer plane (x - 1) (y - 1) + bayer plane (x + 1) (y - 1)
          + bayer plane (x - 1) (y + 1) + bayer plane (x + 1) (y + 1)) / 4⟩
    else
      ⟨(bayer plane (x - 1) y + bayer plane (x + 1) y) / 2,
       bayer plane x y,
       (bayer plane x (y - 1) + bayer plane x (y + 1)) / 2⟩

/-- The three bytes stored into `rgb_buffer` at pixel `(x, y)`
(capture.rs lines 240-244): `(c.min(1023) >> 2) as u8` per channel,
the `as u8` narrowing modelled as `% 256`. -/
def demosaic_bayer (plane : Nat → Nat) (x y : Int) : Rgb :=
  let m := demosaic_match plane x y
  ⟨((min m.r 1023) >>> 2) % 256,
   ((min m.g 1023) >>> 2) % 256,
   ((min m.b 1023) >>> 2) % 256⟩

theorem bayer_in_range (plane : Nat → Nat) (x y : Nat)
    (hx : x < WIDTH) (hy : y < HEIGHT) :
    bayer plane (x : Int) (y : Int) = plane (y * WIDTH + x) := by
  unfold bayer
  have hW : (WIDTH : Int) = 3840 := by norm_num [WIDTH]
  have hH : (HEIGHT : Int) = 2160 := by norm_num [HEIGHT]
  have hx' : x < 3840 := by simpa [WIDTH] using hx
  have hy' : y < 2160 := by simpa [HEIGHT] using hy
  have hxc : (min (max (x : Int) 0) ((WIDTH : Int) - 1)).toNat = x := by
    rw [hW]; omega
  have hyc : (min (max (y : Int) 0) ((HEIGHT : Int) - 1)).toNat = y := by
    rw [hH]; omega
  rw [hxc, hyc]

theorem bayer_le (plane : Nat → Nat) (h : ∀ i, plane i ≤ 1023) (x y : Int) :
    bayer plane x y ≤ 1023 := h _

theorem store_byte_eq (c : Nat) (h : c ≤ 1023) :
    ((min c 1023) >>> 2) % 256 = c / 4 := by
  rw [Nat.min_eq_left h, Nat.shiftRight_eq_div_pow]
  norm_num
  omega

/-- CLAIM C3 (Demosaic identity at CFA samples): for every in-range
pixel `(x, y)` of a 10-bit plane, the output channel that the GBRG
pattern assigns to that pixel — G at parities (0,0) and (1,1), B at
(0,1), R at (1,0) — equals the raw sample `plane (y*WIDTH + x)`
shifted right by two bits. -/
theorem demosaic_cfa_identity (plane : Nat → Nat) (x y : Nat)
    (hx : x < WIDTH) (hy : y < HEIGHT) (hb : ∀ i, plane i ≤ 1023) :
    (y % 2 = 0 → x % 2 = 0 →
      (demosaic_bayer plane (x : Int) (y : Int)).g = plane (y * WIDTH + x) / 4) ∧
    (y % 2 = 0 → x % 2 = 1 →
      (demosaic_bayer plane (x : Int) (y : Int)).b = plane (y * WIDTH + x) / 4) ∧
    (y % 2 = 1 → x % 2 = 0 →
      (demosaic_bayer plane (x : Int) (y : Int)).r = plane (y * WIDTH + x) / 4) ∧
    (y % 2 = 1 → x % 2 = 1 →
      (demosaic_bayer plane (x : Int) (y : Int)).g = plane (y * WIDTH + x) / 4) := by
  have hcenter := bayer_in_range plane x y hx hy
  have hbound := hb (y * WIDTH + x)
  refine ⟨?_, ?_, ?_, ?_⟩
  all_goals intro hy2 hx2
  · have hyi : (y : Int) % 2 = 0 := by omega
    have hxi : (x : Int) % 2 = 0 := by omega
    unfold demosaic_bayer demosaic_match
    rw [if_pos hyi, if_pos hxi]
    simpa [hcenter] using store_byte_eq _ hbound
  · have hyi : (y : Int) % 2 = 0 := by omega
    have hxi : ¬ ((x : Int) % 2 = 0) := by omega
    unfold demosaic_bayer demosaic_match
    rw [if_pos hyi, if_neg hxi]
    simpa [hcenter] using store_byte_eq _ hbound
  · have hyi : ¬ ((y : Int) % 2 = 0) := by omega
    have hxi : (x : Int) % 2 = 0 := by omega
    unfold demosaic_bayer demosaic_match
    rw [if_neg hyi, if_pos hxi]
    simpa [hcenter] using store_byte_eq _ hbound
  · have hyi : ¬ ((y : Int) % 2 = 0) := by omega
    have hxi : ¬ ((x : Int) % 2 = 0) := by omega
    unfold demosaic_bayer demosaic_match
    rw [if_neg hyi, if_neg hxi]
    simpa [hcenter] using store_byte_eq _ hbound

/-- Witness for C3 at the four parity classes on the constant plane 40
(stored byte 10 = 40 >> 2). -/
theorem demosaic_cfa_identity_witness :
    (demosaic_bayer (fun _ : Nat => 40) 0 0).g = 10 ∧
    (demosaic_bayer (fun _ : Nat => 40) 1 0).b = 10 ∧
    (demosaic_bayer (fun _ : Nat => 40) 0 1).r = 10 ∧
    (demosaic_bayer (fun _ : Nat => 40) 1 1).g = 10 := by
  have h00 := demosaic_cfa_identity (fun _ => 40) 0 0 (by decide) (by decide)
    (fun _ => by norm_num)
  have h10 := demosaic_cfa_identity (fun _ => 40) 1 0 (by decide) (by decide)
    (fun _ => by norm_num)
  have h01 := demosaic_cfa_identity (fun _ => 40) 0 1 (by decide) (by decide)
    (fun _ => by norm_num)
  have h11 := demosaic_cfa_identity (fun _ => 40) 1 1 (by decide) (by decide)
    (fun _ => by norm_num)
  refine ⟨?_, ?_, ?_, ?_⟩
  · simpa using h00.1 rfl rfl
  · simpa using h10.2.1 rfl rfl
  · simpa using h01.2.2.1 rfl rfl
  · simpa using h11.2.2.2 rfl rfl

theorem and_three_le (m : Nat) : m &&& 0x3 ≤ 3 := by
  have : m &&& 0x3 = m % 4 := by
    calc m &&& 0x3 = m &&& 2 ^ 2 - 1 := by norm_num
    _ = m % 2 ^ 2 := Nat.and_pow_two_sub_one_eq_mod m 2
    _ = m % 4 := by norm_num
  omega

theorem unpack_cell_le (a c : Nat) (ha : a ≤ 255) :
    (a <<< 2) ||| (c &&& 0x3) ≤ 1023 := by
  have ht := and_three_le c
  have hsl : a <<< 2 = 4 * a := by rw [Nat.shiftLeft_eq]; ring
  rw [hsl, lor_four_mul _ _ (by omega)]
  omega

/-- CLAIM C10 (Implicit 10-bit invariant): if the previous plane
contents are at most 1023 (zero-initialised or previously unpacked)
and the raw bytes are bytes, every cell produced by `unpack_bayer10`
is at most 1023; consequently every channel of `demosaic_match` on a
10-bit plane is at most 1023, the `min 1023` clamp is the identity,
and every stored RGB byte equals the un-truncated `value / 4 ≤ 255`. -/
theorem ten_bit_invariant (raw : List Nat) (old : Nat → Nat) (plane : Nat → Nat)
    (hraw : ∀ b ∈ raw, b ≤ 255) (hold : ∀ i, old i ≤ 1023)
    (hplane : ∀ i, plane i ≤ 1023) :
    (∀ idx, unpack_bayer10 raw old idx ≤ 1023) ∧
    (∀ x y : Int,
      (demosaic_match plane x y).r ≤ 1023 ∧
      (demosaic_match plane x y).g ≤ 1023 ∧
      (demosaic_match plane x y).b ≤ 1023 ∧
      min (demosaic_match plane x y).r 1023 = (demosaic_match plane x y).r ∧
      min (demosaic_match plane x y).g 1023 = (demosaic_match plane x y).g ∧
      min (demosaic_match plane x y).b 1023 = (demosaic_match plane x y).b ∧
      (demosaic_bayer plane x y).r = (demosaic_match plane x y).r / 4 ∧
      (demosaic_bayer plane x y).g = (demosaic_match plane x y).g / 4 ∧
      (demosaic_bayer plane x y).b = (demosaic_match plane x y).b / 4 ∧
      (demosaic_bayer plane x y).r ≤ 255 ∧
      (demosaic_bayer plane x y).g ≤ 255 ∧
      (demosaic_bayer plane x y).b ≤ 255) := by
  constructor
  · intro idx
    simp only [unpack_bayer10]
    split
    · exact unpack_cell_le _ _ (getD_le_of_forall raw 255 hraw _)
    · exact hold idx
  · intro x y
    have hB : ∀ a b : Int, bayer plane a b ≤ 1023 := fun a b => hplane _
    have main : (demosaic_match plane x y).r ≤ 1023 ∧
        (demosaic_match plane x y).g ≤ 1023 ∧
        (demosaic_match plane x y).b ≤ 1023 := by
      unfold demosaic_match
      have h0 := hB x y
      have h1 := hB x (y - 1); have h2 := hB x (y + 1)
      have h3 := hB (x - 1) y; have h4 := hB (x + 1) y
      have h5 := hB (x - 1) (y - 1); have h6 := hB (x + 1) (y - 1)
      have h7 := hB (x - 1) (y + 1); have h8 := hB (x + 1) (y + 1)
      split <;> split <;> dsimp only <;> omega
    obtain ⟨hr, hg, hbb⟩ := main
    refine ⟨hr, hg, hbb, Nat.min_eq_left hr, Nat.min_eq_left hg, Nat.min_eq_left hbb,
      ?_, ?_, ?_, ?_, ?_, ?_⟩
    · exact store_byte_eq _ hr
    · exact store_byte_eq _ hg
    · exact store_byte_eq _ hbb
    · rw [show (demosaic_bayer plane x y).r = ((min (demosaic_match plane x y).r 1023) >>> 2) % 256 from rfl, store_byte_eq _ hr]
      omega
    · rw [show (demosaic_bayer plane x y).g = ((min (demosaic_match plane x y).g 1023) >>> 2) % 256 from rfl, store_byte_eq _ hg]
      omega
    · rw [show (demosaic_bayer plane x y).b = ((min (demosaic_match plane x y).b 1023) >>> 2) % 256 from rfl, store_byte_eq _ hbb]
      omega

/-- Witness for C10 on an all-255 raw buffer and the constant plane
1000. -/
theorem ten_bit_invariant_witness :
    unpack_bayer10 [255, 255, 255, 255, 255] (fun _ => 0) 0 ≤ 1023 ∧
    (demosaic_match (fun _ : Nat => 1000) 3 5).r ≤ 1023 ∧
    (demosaic_bayer (fun _ : Nat => 1000) 3 5).g ≤ 255 := by
  have h := ten_bit_invariant [255, 255, 255, 255, 255] (fun _ => 0)
    (fun _ => 1000) (by decide) (fun _ => by norm_num) (fun _ => by norm_num)
  obtain ⟨h1, h2⟩ := h
  obtain ⟨hr, hg, hbb, m1, m2, m3, e1, e2, e3, b1, b2, b3⟩ := h2 3 5
  exact ⟨h1 0, hr, b2⟩

/-- Bounding box of detector.rs lines 14-20 (`i32` fields). -/
structure BBox where
  x1 : Int
  y1 : Int
  x2 : Int
  y2 : Int
deriving Repr, DecidableEq

/-- One detection (detector.rs lines 23-28).  The `confidence` field is
an `f32` used only to format the label text; floating point is not
modelled, so label text is passed separately where needed. -/
structure Detection where
  cls : String
  bbox : BBox
deriving Repr, DecidableEq

/-- The fields of `AppState` that `capture_loop` (main.rs lines
118-176) writes: the published frame slot, the frame counter and the
shared last-detections list, plus the loop-local
`detection_frame_counter`. -/
structure LoopState where
  currentFrame : Option (List Nat)
  frameCount : Nat
  lastDetections : List Detection
  detectionFrameCounter : Nat
deriving Repr, DecidableEq

/-- Input of one tick of `capture_loop`: whether `state.capture` holds
a capture instance, the outcome of `capture_jpeg_frame`, the
`detection_enabled` flag, and the detector's current result (`none`
models an absent detector, `some r` the list returned by
`get_last_result`). -/
structure TickInput where
  avail : Bool
  result : Except String (List Nat)
  detectionEnabled : Bool
  detectorResult : Option (List Detection)

/-- One iteration of the `loop` of `capture_loop` (main.rs lines
122-175).  A missing capture instance means `continue` (line 130); a
capture error is only logged (lines 171-174); on success the detection
bookkeeping runs (lines 136-166, with `annotate` standing for
`detector::draw_detections`, whose error keeps the un-annotated frame,
line 163), then the frame slot is replaced and the counter incremented
(lines 168-169).  Counter overflow of the `u64`/`u32` counters is not
modelled. -/
def capture_loop_tick
    (annotate : List Nat → List Detection → Except String (List Nat))
    (st : LoopState) (inp : TickInput) : LoopState :=
  if inp.avail = false then st
  else
    match inp.result with
    | Except.error _ => st
    | Except.ok jpeg =>
      let dfc := if inp.detectionEnabled then st.detectionFrameCounter + 1
                 else st.detectionFrameCounter
      let dets := if inp.detectionEnabled then
          match inp.detectorResult with
          | some r => r
          | none => st.lastDetections
        else st.lastDetections
      let jpeg2 := if inp.detectionEnabled ∧ dets ≠ [] then
          match annotate jpeg dets with
          | Except.ok a => a
          | Except.error _ => jpeg
        else jpeg
      { currentFrame := some jpeg2, frameCount := st.frameCount + 1,
        lastDetections := dets, detectionFrameCounter := dfc }

/-- Folding the capture loop over a sequence of tick inputs. -/
def run_ticks (annotate : List Nat → List Detection → Except String (List Nat))
    (st : LoopState) (inputs : List TickInput) : LoopState :=
  inputs.foldl (capture_loop_tick annotate) st

/-- A tick both has a capture instance and a successful
capture-and-encode outcome. -/
def tick_ok (i : TickInput) : Bool :=
  i.avail && (match i.result with
    | Except.ok _ => true
    | Except.error _ => false)

/-- Number of successful capture-and-encode ticks in a sequence. -/
def count_ok (inputs : List TickInput) : Nat := inputs.countP tick_ok

theorem tick_frameCount
    (annotate : List Nat → List Detection → Except String (List Nat))
    (st : LoopState) (i : TickInput) :
    (capture_loop_tick annotate st i).frameCount
      = st.frameCount + (if tick_ok i then 1 else 0) := by
  rcases i with ⟨avail, result, de, dr⟩
  cases avail <;> cases result <;> simp [capture_loop_tick, tick_ok]

theorem run_ticks_count
    (annotate : List Nat → List Detection → Except String (List Nat))
    (inputs : List TickInput) :
    ∀ st, (run_ticks annotate st inputs).frameCount
      = st.frameCount + count_ok inputs := by
  induction inputs with
  | nil => intro st; simp [run_ticks, count_ok]
  | cons i t ih =>
    intro st
    have h1 : run_ticks annotate st (i :: t)
        = run_ticks annotate (capture_loop_tick annotate st i) t := rfl
    rw [h1, ih, tick_frameCount]
    have h2 : count_ok (i :: t) = (if tick_ok i then 1 else 0) + count_ok t := by
      simp [count_ok, List.countP_cons]
      split <;> omega
    rw [h2]
    omega

/-- CLAIM C2 (Frame counter and publish atomicity): on a tick with a
successful capture-and-encode the published slot is replaced by a new
frame and the counter increments by exactly one; on a capture error or
without a capture instance the whole state — slot and counter — is
unchanged; over any sequence of ticks the counter gains exactly the
number of successful ticks, hence is non-decreasing. -/
theorem capture_counter_atomicity
    (annotate : List Nat → List Detection → Except String (List Nat)) :
    (∀ st j de dr,
      (capture_loop_tick annotate st ⟨true, Except.ok j, de, dr⟩).frameCount
        = st.frameCount + 1 ∧
      (capture_loop_tick annotate st
        ⟨true, Except.ok j, de, dr⟩).currentFrame.isSome = true) ∧
    (∀ st j dr,
      (capture_loop_tick annotate st ⟨true, Except.ok j, false, dr⟩).currentFrame
        = some j) ∧
    (∀ st e de dr,
      capture_loop_tick annotate st ⟨true, Except.error e, de, dr⟩ = st) ∧
    (∀ st r de dr, capture_loop_tick annotate st ⟨false, r, de, dr⟩ = st) ∧
    (∀ st inputs, (run_ticks annotate st inputs).frameCount
        = st.frameCount + count_ok inputs) ∧
    (∀ st inputs, st.frameCount ≤ (run_ticks annotate st inputs).frameCount) := by
  refine ⟨?_, ?_, ?_, ?_, run_ticks_count annotate |> fun h st inputs => h inputs st, ?_⟩
  · intro st j de dr
    constructor
    · simp [capture_loop_tick]
    · simp [capture_loop_tick]
  · intro st j dr
    simp [capture_loop_tick]
  · intro st e de dr
    simp [capture_loop_tick]
  · intro st r de dr
    simp [capture_loop_tick]
  · intro st inputs
    rw [run_ticks_count annotate inputs st]
    omega

/-- `capture_raw_frame` (capture.rs lines 135-159), with its two
external effects as parameters: `spawn` is the outcome of running the
`v4l2-ctl` capture command (`error` models "failed to run", `ok b`
models a run with `b = status.success()`), and `fileRead` is the
outcome of `fs::read` of the temp file.  The frame-counter fetch and
the temp-file removal do not affect the returned value. -/
def capture_raw_frame (spawn : Except String Bool)
    (fileRead : Except String (List Nat)) : Except String (List Nat) :=
  match spawn with
  | Except.error e => Except.error e
  | Except.ok success =>
    if success = false then Except.error ("v4l2-ctl capture failed")
    else fileRead

/-- Counterexample to CLAIM C7 as stated: a successful command whose
read-back file holds 3 bytes is returned as-is — `capture_raw_frame`
performs no short-read check and guarantees no
`STRIDE × HEIGHT` length. -/
theorem capture_raw_no_length_check :
    capture_raw_frame (Except.ok true) (Except.ok [1, 2, 3]) = Except.ok [1, 2, 3]
      ∧ ([1, 2, 3] : List Nat).length ≠ STRIDE * HEIGHT := by
  exact ⟨rfl, by decide⟩

/-- CLAIM C7, amended (Raw acquisition contract): `capture_raw_frame`
returns an error when the capture command fails to run or exits
nonzero, or when the raw file cannot be read back; on success it
returns the file's bytes unchanged, with no length validation (a short
frame is passed through and tolerated downstream). -/
theorem capture_raw_contract (e : String) (f : Except String (List Nat))
    (data : List Nat) :
    capture_raw_frame (Except.error e) f = Except.error e ∧
    capture_raw_frame (Except.ok false) f
      = Except.error ("v4l2-ctl capture failed") ∧
    capture_raw_frame (Except.ok true) (Except.error e) = Except.error e ∧
    capture_raw_frame (Except.ok true) (Except.ok data) = Except.ok data :=
  ⟨rfl, rfl, rfl, rfl⟩

/-- An HTTP response as assembled by the handlers of main.rs: status
code, list of (name, value) headers, body bytes. -/
structure HttpResponse where
  status : Nat
  headers : List (String × String)
  body : List Nat
deriving Repr, DecidableEq

/-- Byte sequence of an ASCII body string. -/
def str_bytes (s : String) : List Nat := s.data.map Char.toNat

/-- `frame_handler` (main.rs lines 736-753): with a published frame,
200 / `image/jpeg` / `Cache-Control: no-cache, no-store,
must-revalidate` and the frame bytes; with none, 503 and a plain-text
body. -/
def frame_handler (currentFrame : Option (List Nat)) : HttpResponse :=
  match currentFrame with
  | some frame =>
    { status := 200,
      headers := [("content-type", "image/jpeg"),
                  ("cache-control", "no-cache, no-store, must-revalidate")],
      body := frame }
  | none =>
    { status := 503, headers := [], body := str_bytes ("No frame available") }

/-- Counterexample to CLAIM C8 as stated: the Cache-Control header of a
200 response is not the bare `no-store` — the code sends
`no-cache, no-store, must-revalidate`. -/
theorem frame_handler_no_store_cex :
    ¬ (("cache-control", "no-store") ∈ (frame_handler (some [7])).headers) := by
  decide

/-- CLAIM C8, amended (Snapshot endpoint): `/frame.jpg` returns 503 if
and only if no frame has been published; otherwise 200 with
Content-Type `image/jpeg`, body equal to the published frame bytes,
and Cache-Control `no-cache, no-store, must-revalidate` (which
includes the `no-store` directive). -/
theorem frame_handler_contract (c : Option (List Nat)) (f : List Nat) :
    ((frame_handler c).status = 503 ↔ c = none) ∧
    (frame_handler (some f)).status = 200 ∧
    ("content-type", "image/jpeg") ∈ (frame_handler (some f)).headers ∧
    ("cache-control", "no-cache, no-store, must-revalidate")
      ∈ (frame_handler (some f)).headers ∧
    (frame_handler (some f)).body = f := by
  refine ⟨?_, rfl, by simp [frame_handler], by simp [frame_handler], rfl⟩
  cases c <;> simp [frame_handler]

/-- A decoded RGB image: dimensions plus pixel function. -/
structure Img where
  w : Nat
  h : Nat
  pix : Nat → Nat → Rgb

/-- The `as u32` reinterpretation of an `i32` (two's-complement bit
pattern), used on `det.bbox.x2` / `det.bbox.y2` in detector.rs lines
221-222. -/
def i32ToU32 (x : Int) : Nat := (x % 4294967296).toNat

/-- The 5×7 bitmap font of `draw_text` (detector.rs lines 311-349).
Characters absent from the table paint nothing but still advance the
cursor. -/
def font (c : Char) : Option (List (List Nat)) :=
  if c = '0' then some [[0,1,1,1,0],[1,0,0,0,1],[1,0,0,1,1],[1,0,1,0,1],[1,1,0,0,1],[1,0,0,0,1],[0,1,1,1,0]]
  else if c = '1' then some [[0,0,1,0,0],[0,1,1,0,0],[0,0,1,0,0],[0,0,1,0,0],[0,0,1,0,0],[0,0,1,0,0],[0,1,1,1,0]]
  else if c = '2' then some [[0,1,1,1,0],[1,0,0,0,1],[0,0,0,0,1],[0,0,0,1,0],[0,0,1,0,0],[0,1,0,0,0],[1,1,1,1,1]]
  else if c = '3' then some [[0,1,1,1,0],[1,0,0,0,1],[0,0,0,0,1],[0,0,1,1,0],[0,0,0,0,1],[1,0,0,0,1],[0,1,1,1,0]]
  else if c = '4' then some [[0,0,0,1,0],[0,0,1,1,0],[0,1,0,1,0],[1,0,0,1,0],[1,1,1,1,1],[0,0,0,1,0],[0,0,0,1,0]]
  else if c = '5' then some [[1,1,1,1,1],[1,0,0,0,0],[1,1,1,1,0],[0,0,0,0,1],[0,0,0,0,1],[1,0,0,0,1],[0,1,1,1,0]]
  else if c = '6' then some [[0,1,1,1,0],[1,0,0,0,0],[1,0,0,0,0],[1,1,1,1,0],[1,0,0,0,1],[1,0,0,0,1],[0,1,1,1,0]]
  else if c = '7' then some [[1,1,1,1,1],[0,0,0,0,1],[0,0,0,1,0],[0,0,1,0,0],[0,1,0,0,0],[0,1,0,0,0],[0,1,0,0,0]]
  else if c = '8' then some [[0,1,1,1,0],[1,0,0,0,1],[1,0,0,0,1],[0,1,1,1,0],[1,0,0,0,1],[1,0,0,0,1],[0,1,1,1,0]]
  else if c = '9' then some [[0,1,1,1,0],[1,0,0,0,1],[1,0,0,0,1],[0,1,1,1,1],[0,0,0,0,1],[0,0,0,0,1],[0,1,1,1,0]]
  else if c = 'a' then some [[0,0,0,0,0],[0,0,0,0,0],[0,1,1,1,0],[0,0,0,0,1],[0,1,1,1,1],[1,0,0,0,1],[0,1,1,1,1]]
  else if c = 'b' then some [[1,0,0,0,0],[1,0,0,0,0],[1,1,1,1,0],[1,0,0,0,1],[1,0,0,0,1],[1,0,0,0,1],[1,1,1,1,0]]
  else if c = 'c' then some [[0,0,0,0,0],[0,0,0,0,0],[0,1,1,1,0],[1,0,0,0,0],[1,0,0,0,0],[1,0,0,0,0],[0,1,1,1,0]]
  else if c = 'd' then some [[0,0,0,0,1],[0,0,0,0,1],[0,1,1,1,1],[1,0,0,0,1],[1,0,0,0,1],[1,0,0,0,1],[0,1,1,1,1]]
  else if c = 'e' then some [[0,0,0,0,0],[0,0,0,0,0],[0,1,1,1,0],[1,0,0,0,1],[1,1,1,1,1],[1,0,0,0,0],[0,1,1,1,0]]
  else if c = 'f' then some [[0,0,1,1,0],[0,1,0,0,0],[0,1,0,0,0],[1,1,1,0,0],[0,1,0,0,0],[0,1,0,0,0],[0,1,0,0,0]]
  else if c = 'g' then some [[0,0,0,0,0],[0,1,1,1,1],[1,0,0,0,1],[1,0,0,0,1],[0,1,1,1,1],[0,0,0,0,1],[0,1,1,1,0]]
  else if c = 'h' then some [[1,0,0,0,0],[1,0,0,0,0],[1,1,1,1,0],[1,0,0,0,1],[1,0,0,0,1],[1,0,0,0,1],[1,0,0,0,1]]
  else if c = 'i' then some [[0,0,1,0,0],[0,0,0,0,0],[0,1,1,0,0],[0,0,1,0,0],[0,0,1,0,0],[0,0,1,0,0],[0,1,1,1,0]]
  else if c = 'k' then some [[1,0,0,0,0],[1,0,0,0,0],[1,0,0,1,0],[1,0,1,0,0],[1,1,0,0,0],[1,0,1,0,0],[1,0,0,1,0]]
  else if c = 'l' then some [[0,1,1,0,0],[0,0,1,0,0],[0,0,1,0,0],[0,0,1,0,0],[0,0,1,0,0],[0,0,1,0,0],[0,1,1,1,0]]
  else if c = 'm' then some [[0,0,0,0,0],[0,0,0,0,0],[1,1,0,1,0],[1,0,1,0,1],[1,0,1,0,1],[1,0,1,0,1],[1,0,1,0,1]]
  else if c = 'n' then some [[0,0,0,0,0],[0,0,0,0,0],[1,1,1,1,0],[1,0,0,0,1],[1,0,0,0,1],[1,0,0,0,1],[1,0,0,0,1]]
  else if c = 'o' then some [[0,0,0,0,0],[0,0,0,0,0],[0,1,1,1,0],[1,0,0,0,1],[1,0,0,0,1],[1,0,0,0,1],[0,1,1,1,0]]
  else if c = 'p' then some [[0,0,0,0,0],[1,1,1,1,0],[1,0,0,0,1],[1,0,0,0,1],[1,1,1,1,0],[1,0,0,0,0],[1,0,0,0,0]]
  else if c = 'r' then some [[0,0,0,0,0],[0,0,0,0,0],[1,0,1,1,0],[1,1,0,0,1],[1,0,0,0,0],[1,0,0,0,0],[1,0,0,0,0]]
  else if c = 's' then some [[0,0,0,0,0],[0,0,0,0,0],[0,1,1,1,1],[1,0,0,0,0],[0,1,1,1,0],[0,0,0,0,1],[1,1,1,1,0]]
  else if c = 't' then some [[0,0,1,0,0],[0,0,1,0,0],[0,1,1,1,0],[0,0,1,0,0],[0,0,1,0,0],[0,0,1,0,0],[0,0,0,1,0]]
  else if c = 'u' then some [[0,0,0,0,0],[0,0,0,0,0],[1,0,0,0,1],[1,0,0,0,1],[1,0,0,0,1],[1,0,0,0,1],[0,1,1,1,1]]
  else if c = 'v' then some [[0,0,0,0,0],[0,0,0,0,0],[1,0,0,0,1],[1,0,0,0,1],[1,0,0,0,1],[0,1,0,1,0],[0,0,1,0,0]]
  else if c = 'w' then some [[0,0,0,0,0],[0,0,0,0,0],[1,0,0,0,1],[1,0,1,0,1],[1,0,1,0,1],[1,0,1,0,1],[0,1,0,1,0]]
  else if c = 'y' then some [[0,0,0,0,0],[1,0,0,0,1],[1,0,0,0,1],[0,1,0,1,0],[0,0,1,0,0],[0,1,0,0,0],[1,0,0,0,0]]
  else if c = ' ' then some [[0,0,0,0,0],[0,0,0,0,0],[0,0,0,0,0],[0,0,0,0,0],[0,0,0,0,0],[0,0,0,0,0],[0,0,0,0,0]]
  else if c = '%' then some [[1,1,0,0,1],[1,1,0,0,1],[0,0,0,1,0],[0,0,1,0,0],[0,1,0,0,0],[1,0,0,1,1],[1,0,0,1,1]]
  else if c = '.' then some [[0,0,0,0,0],[0,0,0,0,0],[0,0,0,0,0],[0,0,0,0,0],[0,0,0,0,0],[0,1,1,0,0],[0,1,1,0,0]]
  else if c = '-' then some [[0,0,0,0,0],[0,0,0,0,0],[0,0,0,0,0],[1,1,1,1,1],[0,0,0,0,0],[0,0,0,0,0],[0,0,0,0,0]]
  else if c = '_' then some [[0,0,0,0,0],[0,0,0,0,0],[0,0,0,0,0],[0,0,0,0,0],[0,0,0,0,0],[0,0,0,0,0],[1,1,1,1,1]]
  else none

/-- Whether `draw_text` (detector.rs lines 309-372) paints pixel
`(px, py)` when rasterising `text` at `(x, y)` with scale `s`:
character `ci` sits at cursor `x + ci*6*s`; an on-bit `(row, col)` of
its bitmap covers the `s × s` block at `(cursor + col*s, y + row*s)`,
clipped to the image bounds. -/
def text_pix (wImg hImg : Nat) (text : List Char) (x y s : Nat)
    (px py : Nat) : Bool :=
  decide (px < wImg) && decide (py < hImg) &&
  (List.range text.length).any (fun ci =>
    match font (text.getD ci ' ') with
    | none => false
    | some bm =>
      (List.range 7).any (fun row =>
        (List.range 5).any (fun col =>
          ((bm.getD row []).getD col 0 == 1) &&
          decide (x + ci * (6 * s) + col * s ≤ px) &&
          decide (px < x + ci * (6 * s) + col * s + s) &&
          decide (y + row * s ≤ py) &&
          decide (py < y + row * s + s))))

/-- Whether pixel `(px, py)` lies on one of the four rectangle bands of
thickness 4 drawn in detector.rs lines 229-268: top rows `y1..y1+3`,
bottom rows `y2-3..y2`, left columns `x1..x1+3`, right columns
`x2-3..x2`, clipped to the image bounds. -/
def box_band (wImg hImg x1 y1 x2 y2 : Nat) (px py : Nat) : Bool :=
  (decide (x1 ≤ px) && decide (px ≤ x2) && decide (px < wImg) &&
    decide (py < hImg) &&
    ((decide (y1 ≤ py) && decide (py < y1 + 4)) ||
     (decide (py ≤ y2) && decide (y2 < py + 4)))) ||
  (decide (y1 ≤ py) && decide (py ≤ y2) && decide (py < hImg) &&
    decide (px < wImg) &&
    ((decide (x1 ≤ px) && decide (px < x1 + 4)) ||
     (decide (px ≤ x2) && decide (x2 < px + 4))))

/-- `box_color` of detector.rs line 213. -/
def box_color : Rgb := ⟨255, 50, 50⟩

/-- `label_bg` of detector.rs line 214. -/
def label_bg : Rgb := ⟨255, 255, 255⟩

/-- `label_text` of detector.rs line 215. -/
def label_text : Rgb := ⟨200, 0, 0⟩

/-- Drawing of one detection in the loop of `draw_detections`
(detector.rs lines 218-293).  Extents clamp to the image (`max 0` on
`x1`, `y1`; `as u32` then `min (dim - 1)` on `x2`, `y2`); a clamped
box with `x2 <= x1 || y2 <= y1` is skipped whole (`continue`, lines
224-226).  Otherwise the rectangle bands, then the label background,
then the label text are painted, each overwriting the previous
(modelled as reversed-priority conditionals on the pixel function).
`label_of` supplies the formatted `"class CC%"` text (its `f32`
confidence formatting is external); `draw_text` lowercases it per
character. -/
def draw_detection (label_of : Detection → List Char) (img : Img)
    (det : Detection) : Img :=
  let x1 := i32ToU32 (max det.bbox.x1 0)
  let y1 := i32ToU32 (max det.bbox.y1 0)
  let x2 := min (i32ToU32 det.bbox.x2) (img.w - 1)
  let y2 := min (i32ToU32 det.bbox.y2) (img.h - 1)
  if x2 ≤ x1 ∨ y2 ≤ y1 then img
  else
    let label := (label_of det).map Char.toLower
    let labelWidth := min (label.length * 12) (img.w - x1)
    let labelY := if 32 ≤ y1 then y1 - 32 else y2 + 4
    { img with pix := fun px py =>
        if text_pix img.w img.h label (x1 + 4) (labelY + 4) 2 px py then
          label_text
        else if decide (x1 ≤ px) && decide (px < x1 + labelWidth) &&
            decide (labelY ≤ py) && decide (py < labelY + 32) &&
            decide (px < img.w) && decide (py < img.h) then
          label_bg
        else if box_band img.w img.h x1 y1 x2 y2 px py then
          box_color
        else img.pix px py }

/-- `draw_detections` (detector.rs lines 198-306).  The JPEG codec is
an external collaborator, so `decode` and `encode` are parameters.
An empty detection list returns the input bytes before any decode
(lines 203-205); otherwise the frame is decoded, every detection is
drawn in order, and the result re-encoded. -/
def draw_detections (decode : List Nat → Except String Img)
    (encode : Img → List Nat) (label_of : Detection → List Char)
    (jpeg : List Nat) (dets : List Detection) : Except String (List Nat) :=
  if dets = [] then Except.ok jpeg
  else
    match decode jpeg with
    | Except.error e => Except.error e
    | Except.ok img =>
      Except.ok (encode (dets.foldl (draw_detection label_of) img))

/-- CLAIM C9 (Overlay degenerate cases): `draw_detections` on an empty
detection list returns the input bytes unchanged (before any decode),
and a detection whose clamped box is degenerate (`x2 ≤ x1` or
`y2 ≤ y1` after clamping to image bounds) draws nothing — neither box
nor label — leaving the decoded image unchanged. -/
theorem draw_detections_degenerate
    (decode : List Nat → Except String Img) (encode : Img → List Nat)
    (label_of : Detection → List Char) (jpeg : List Nat)
    (img : Img) (det : Detection)
    (hdeg : min (i32ToU32 det.bbox.x2) (img.w - 1) ≤ i32ToU32 (max det.bbox.x1 0)
      ∨ min (i32ToU32 det.bbox.y2) (img.h - 1) ≤ i32ToU32 (max det.bbox.y1 0)) :
    draw_detections decode encode label_of jpeg [] = Except.ok jpeg ∧
    draw_detection label_of img det = img := by
  constructor
  · rfl
  · simp only [draw_detection]
    rw [if_pos hdeg]

/-- Witness for C9: a 4×4 black image and a detection whose raw box
`(2, 2)-(1, 3)` is degenerate after clamping. -/
theorem draw_detections_degenerate_witness :
    draw_detections (fun _ => Except.ok ⟨4, 4, fun _ _ => ⟨0, 0, 0⟩⟩)
      (fun _ => []) (fun _ => []) [9, 9] [] = Except.ok [9, 9] ∧
    draw_detection (fun _ => []) ⟨4, 4, fun _ _ => ⟨0, 0, 0⟩⟩
      ⟨"person", ⟨2, 2, 1, 3⟩⟩ = ⟨4, 4, fun _ _ => ⟨0, 0, 0⟩⟩ :=
  draw_detections_degenerate _ _ _ [9, 9] ⟨4, 4, fun _ _ => ⟨0, 0, 0⟩⟩
    ⟨"person", ⟨2, 2, 1, 3⟩⟩ (by decide)

end IMX415
